import Mathlib

/-!
Verification of the fanSpeedControl monitoring scripts
(`scripts/alarm_monitor.py`, `scripts/log_monitor.py`, `scripts/temp_monitor.py`).

The scripts subscribe to MQTT topics, decode JSON payloads, apply CLI-supplied
filters and render colorized console output.  This file gives a shallow
embedding of the message-handling pipeline of the three scripts:

* Dictionaries decoded from JSON payloads become Lean structures whose fields
  are `Option`-typed (a `none` field models a key absent from the dict, so that
  Python's `dict.get(key)` returns `None`).
* `argparse` namespaces become structures of `Option`/`Bool` fields; Python
  truthiness of `args.x` is modelled explicitly (`None`, `""` and `0` are falsy).
* `datetime.datetime.fromisoformat` (composed with conversion of the resulting
  aware datetime to epoch seconds relative to `datetime.now(timezone.utc)`) is
  an abstract parameter `parseIso : String → Option Int`; `none` models the
  call raising (`ValueError` on an unparsable string, or the `TypeError` that
  the subsequent aware-minus-naive subtraction raises).  Raised exceptions are
  modelled as `Except.error` values.
* `json.loads` outcomes are modelled by the `Payload` type: undecodable bytes,
  malformed JSON text, a JSON value that is not an object, or an object.
-/

/-- Python truthiness of an optional string CLI argument:
`None` and the empty string are falsy. -/
def truthyStr : Option String → Bool
  | none => false
  | some s => s != ""

/-- Python truthiness of an optional integer CLI argument:
`None` and `0` are falsy. -/
def truthyInt : Option Int → Bool
  | none => false
  | some n => n != 0

/-- Model of the Python expression `s.replace('Z', '+00:00')`: since the
pattern is the single character `Z`, replacing every occurrence of the
substring is the same as expanding every `Z` character. -/
def replaceZ (s : String) : String :=
  String.mk (List.flatten (s.data.map (fun c => if c = 'Z' then "+00:00".data else [c])))

/-- An alarm dict decoded from a JSON object payload
(`alarm_monitor.py`).  A `none` field models an absent key.  Field values the
scripts only compare or print are typed as strings; `details` values are
rendered verbatim, so they are kept as strings as well. -/
structure AlarmRecord where
  alarm_id : Option String
  timestamp : Option String
  level : Option String
  status : Option String
  source : Option String
  message : Option String
  details : Option (List (String × String))
  acknowledged_by : Option String
  acknowledged_at : Option String
deriving DecidableEq

/-- The `argparse` namespace of `alarm_monitor.py`
(`--level`, `--source`, `--active-only`, `--acknowledged`, `--time-window`). -/
structure AlarmArgs where
  level : Option String
  source : Option String
  active_only : Bool
  acknowledged : Bool
  time_window : Option Int
deriving DecidableEq

/-- A log dict decoded from a JSON object payload (`log_monitor.py`). -/
structure LogRecord where
  timestamp : Option String
  level : Option String
  source : Option String
  message : Option String
  details : Option (List (String × String))
deriving DecidableEq

/-- The `argparse` namespace of `log_monitor.py` restricted to the fields the
filter reads (`--level`, `--source`, `--time-window`; `--topic` only selects
the subscription and is never read by `should_display_log`). -/
structure LogArgs where
  level : Option String
  source : Option String
  time_window : Option Int
deriving DecidableEq

/-- `should_display_alarm(alarm_data, args)` of `alarm_monitor.py`, lines
62-77, translated clause by clause.  `parseIso` stands for
`datetime.fromisoformat` followed by the subtraction-ready conversion to epoch
seconds; `now` is `datetime.now(timezone.utc)` in epoch seconds.  A raised
`ValueError`/`TypeError` inside the time-window clause is the `Except.error`
result. -/
def should_display_alarm (parseIso : String → Option Int) (now : Int)
    (alarm_data : AlarmRecord) (args : AlarmArgs) : Except String Bool :=
  if truthyStr args.level && (alarm_data.level != args.level) then Except.ok false
  else if truthyStr args.source && (alarm_data.source != args.source) then Except.ok false
  else if args.active_only && (alarm_data.status != some "ACTIVE") then Except.ok false
  else if args.acknowledged && (alarm_data.status != some "ACKNOWLEDGED") then Except.ok false
  else if truthyInt args.time_window then
    match parseIso (replaceZ (alarm_data.timestamp.getD "")) with
    | none => Except.error "Invalid isoformat string"
    | some alarm_time =>
      if now - alarm_time > args.time_window.getD 0 * 60 then Except.ok false
      else Except.ok true
  else Except.ok true

/-- `should_display_log(log_data, args)` of `log_monitor.py`, lines 48-59,
translated clause by clause, with the same conventions as
`should_display_alarm`. -/
def should_display_log (parseIso : String → Option Int) (now : Int)
    (log_data : LogRecord) (args : LogArgs) : Except String Bool :=
  if truthyStr args.level && (log_data.level != args.level) then Except.ok false
  else if truthyStr args.source && (log_data.source != args.source) then Except.ok false
  else if truthyInt args.time_window then
    match parseIso (replaceZ (log_data.timestamp.getD "")) with
    | none => Except.error "Invalid isoformat string"
    | some log_time =>
      if now - log_time > args.time_window.getD 0 * 60 then Except.ok false
      else Except.ok true
  else Except.ok true

/-- The disjunction of the four early-return guards of `should_display_alarm`
that precede the time-window clause. -/
def alarmGuards (alarm_data : AlarmRecord) (args : AlarmArgs) : Bool :=
  (truthyStr args.level && (alarm_data.level != args.level)) ||
  (truthyStr args.source && (alarm_data.source != args.source)) ||
  (args.active_only && (alarm_data.status != some "ACTIVE")) ||
  (args.acknowledged && (alarm_data.status != some "ACKNOWLEDGED"))

/-- The two early-return guards of `should_display_log` that precede the
time-window clause. -/
def logGuards (log_data : LogRecord) (args : LogArgs) : Bool :=
  (truthyStr args.level && (log_data.level != args.level)) ||
  (truthyStr args.source && (log_data.source != args.source))

/-- The trailing time-window clause shared verbatim by both filters
(`alarm_monitor.py` lines 72-77, `log_monitor.py` lines 54-59). -/
def timeWindowCheck (parseIso : String → Option Int) (now : Int)
    (ts : Option String) (tw : Option Int) : Except String Bool :=
  if truthyInt tw then
    match parseIso (replaceZ (ts.getD "")) with
    | none => Except.error "Invalid isoformat string"
    | some t =>
      if now - t > tw.getD 0 * 60 then Except.ok false
      else Except.ok true
  else Except.ok true

theorem should_display_alarm_eq (parseIso : String → Option Int) (now : Int)
    (d : AlarmRecord) (args : AlarmArgs) :
    should_display_alarm parseIso now d args =
      if alarmGuards d args then Except.ok false
      else timeWindowCheck parseIso now d.timestamp args.time_window := by
  unfold should_display_alarm alarmGuards timeWindowCheck
  cases h1 : truthyStr args.level && (d.level != args.level) <;>
    cases h2 : truthyStr args.source && (d.source != args.source) <;>
      cases h3 : args.active_only && (d.status != some "ACTIVE") <;>
        cases h4 : args.acknowledged && (d.status != some "ACKNOWLEDGED") <;>
          simp [h1, h2, h3, h4]

theorem should_display_log_eq (parseIso : String → Option Int) (now : Int)
    (d : LogRecord) (args : LogArgs) :
    should_display_log parseIso now d args =
      if logGuards d args then Except.ok false
      else timeWindowCheck parseIso now d.timestamp args.time_window := by
  unfold should_display_log logGuards timeWindowCheck
  cases h1 : truthyStr args.level && (d.level != args.level) <;>
    cases h2 : truthyStr args.source && (d.source != args.source) <;>
      simp [h1, h2]

/-- C5: For every decodable record, evaluating the filter predicate with an
empty criteria set (no level, no source, no status and no time-window
criterion active) returns true, in both the alarm monitor and the log
monitor. -/
theorem claim_C5_empty_criteria_passes :
    (∀ (parseIso : String → Option Int) (now : Int) (d : AlarmRecord),
      should_display_alarm parseIso now d ⟨none, none, false, false, none⟩ = Except.ok true) ∧
    (∀ (parseIso : String → Option Int) (now : Int) (d : LogRecord),
      should_display_log parseIso now d ⟨none, none, none⟩ = Except.ok true) :=
  ⟨fun _ _ _ => rfl, fun _ _ _ => rfl⟩

/-- C9: A `--time-window` value of `0` minutes is falsy in Python, so the
time-window clause is skipped exactly as when the criterion is absent: the
filter with `time_window = 0` is the same function of the record as the filter
with no time-window criterion, in both monitors. -/
theorem claim_C9_zero_window_is_no_window :
    (∀ (parseIso : String → Option Int) (now : Int) (d : AlarmRecord) (args : AlarmArgs),
      should_display_alarm parseIso now d { args with time_window := some 0 } =
        should_display_alarm parseIso now d { args with time_window := none }) ∧
    (∀ (parseIso : String → Option Int) (now : Int) (d : LogRecord) (args : LogArgs),
      should_display_log parseIso now d { args with time_window := some 0 } =
        should_display_log parseIso now d { args with time_window := none }) :=
  ⟨fun _ _ _ _ => rfl, fun _ _ _ _ => rfl⟩

/-- A sample concrete instance of the abstract timestamp parser, recognising
one aware ISO-8601 instant (epoch second 1000) and failing on everything
else — in particular on the empty string, exactly as
`datetime.fromisoformat('')` raises `ValueError`. -/
def parseIsoSample : String → Option Int :=
  fun s => if s = "2025-06-01T12:00:00+00:00" then some 1000 else none

/-- A fully-populated sample alarm record used in closed instances. -/
def alarmRecW : AlarmRecord :=
  ⟨some "A-1", some "2025-06-01T12:00:00Z", some "LOW", some "ACTIVE",
   some "pump-3", some "over temperature", none, none, none⟩

/-- A sample alarm record whose payload has no `timestamp` key at all. -/
def alarmRecNoTs : AlarmRecord :=
  ⟨some "A-2", none, some "HIGH", some "ACTIVE", some "pump-3",
   some "over temperature", none, none, none⟩

/-- A fully-populated sample log record used in closed instances. -/
def logRecW : LogRecord :=
  ⟨some "2025-06-01T12:00:00Z", some "INFO", some "web", some "started", none⟩

/-- A sample log record whose payload has no `timestamp` key at all. -/
def logRecNoTs : LogRecord :=
  ⟨none, some "INFO", some "web", some "started", none⟩

/-- C1: the claim says that on a record whose `timestamp` is absent or
unparsable, an active time-window criterion makes the filter return false
without raising.  The code instead raises: `alarm_data.get('timestamp', '')`
yields `''`, and `datetime.fromisoformat('')` raises `ValueError`, so
evaluating either filter with `--time-window 30` on a timestamp-less record is
the error outcome, not `ok false`.  (The per-message handler later catches the
exception; the filter itself is not total.) -/
theorem claim_C1_missing_timestamp_raises :
    should_display_alarm parseIsoSample 0 alarmRecNoTs ⟨none, none, false, false, some 30⟩ =
        Except.error "Invalid isoformat string" ∧
    should_display_log parseIsoSample 0 logRecNoTs ⟨none, none, some 30⟩ =
        Except.error "Invalid isoformat string" ∧
    should_display_alarm parseIsoSample 0 alarmRecNoTs ⟨none, none, false, false, some 30⟩ ≠
        Except.ok false := by
  refine ⟨rfl, rfl, fun h => ?_⟩
  have h0 : should_display_alarm parseIsoSample 0 alarmRecNoTs
      ⟨none, none, false, false, some 30⟩ = Except.error "Invalid isoformat string" := rfl
  rw [h0] at h
  exact Except.noConfusion h

/-- C7: when both `--active-only` and `--acknowledged` are set, the alarm
filter returns false on every record: the status cannot be both `ACTIVE` and
`ACKNOWLEDGED`, and both status clauses run before the time-window clause, so
no other criterion and no timestamp can change the outcome. -/
theorem claim_C7_active_and_acknowledged_always_false :
    ∀ (parseIso : String → Option Int) (now : Int) (d : AlarmRecord) (args : AlarmArgs),
      args.active_only = true → args.acknowledged = true →
      should_display_alarm parseIso now d args = Except.ok false := by
  intro parseIso now d args h1 h2
  rw [should_display_alarm_eq]
  have hg : alarmGuards d args = true := by
    simp only [alarmGuards, h1, h2, Bool.true_and, Bool.or_eq_true]
    by_cases hs : d.status = some "ACTIVE"
    · right; rw [hs]; decide
    · left; right
      simp only [bne_iff_ne, ne_eq, decide_eq_true_eq]
      exact hs
  simp [hg]

/-- C7 witness: a concrete acknowledged-and-active-only evaluation. -/
theorem claim_C7_witness :
    should_display_alarm parseIsoSample 0 alarmRecW ⟨none, none, true, true, none⟩ =
      Except.ok false :=
  claim_C7_active_and_acknowledged_always_false parseIsoSample 0 alarmRecW
    ⟨none, none, true, true, none⟩ rfl rfl

/-- C10: the time-window boundary is inclusive.  The rejection test is
`time_diff.total_seconds() > args.time_window * 60`, a strict comparison, so a
record whose age is exactly `time_window * 60` seconds is not rejected: with
only the time-window criterion active the filter returns true, in both
monitors. -/
theorem claim_C10_window_boundary_inclusive :
    (∀ (parseIso : String → Option Int) (now : Int) (d : AlarmRecord) (w t : Int),
      0 < w →
      parseIso (replaceZ (d.timestamp.getD "")) = some t →
      now - t = w * 60 →
      should_display_alarm parseIso now d ⟨none, none, false, false, some w⟩ = Except.ok true) ∧
    (∀ (parseIso : String → Option Int) (now : Int) (d : LogRecord) (w t : Int),
      0 < w →
      parseIso (replaceZ (d.timestamp.getD "")) = some t →
      now - t = w * 60 →
      should_display_log parseIso now d ⟨none, none, some w⟩ = Except.ok true) := by
  constructor
  · intro parseIso now d w t hw hp hdiff
    rw [should_display_alarm_eq]
    have hg : alarmGuards d ⟨none, none, false, false, some w⟩ = false := by
      simp [alarmGuards, truthyStr]
    rw [hg]
    simp only [Bool.false_eq_true, if_false, timeWindowCheck, truthyInt]
    have hw0 : ((w != 0) = true) := by simp [bne_iff_ne]; omega
    rw [if_pos hw0, hp]
    simp [hdiff]
  · intro parseIso now d w t hw hp hdiff
    rw [should_display_log_eq]
    have hg : logGuards d ⟨none, none, some w⟩ = false := by
      simp [logGuards, truthyStr]
    rw [hg]
    simp only [Bool.false_eq_true, if_false, timeWindowCheck, truthyInt]
    have hw0 : ((w != 0) = true) := by simp [bne_iff_ne]; omega
    rw [if_pos hw0, hp]
    simp [hdiff]

/-- C10 witness: a record whose age is exactly 30 * 60 seconds passes a
30-minute window in both monitors. -/
theorem claim_C10_witness :
    should_display_alarm parseIsoSample 2800 alarmRecW ⟨none, none, false, false, some 30⟩ =
        Except.ok true ∧
    should_display_log parseIsoSample 2800 logRecW ⟨none, none, some 30⟩ = Except.ok true :=
  ⟨claim_C10_window_boundary_inclusive.1 parseIsoSample 2800 alarmRecW 30 1000
      (by decide) (by decide) (by decide),
   claim_C10_window_boundary_inclusive.2 parseIsoSample 2800 logRecW 30 1000
      (by decide) (by decide) (by decide)⟩

/-- Monotonicity engine for the alarm filter: if a criteria set already
rejects a record and a second criteria set keeps the same time window while
its early guards are at least as strong, the second set also rejects it. -/
theorem alarm_false_mono (parseIso : String → Option Int) (now : Int)
    (d : AlarmRecord) (C C' : AlarmArgs)
    (hg : alarmGuards d C = true → alarmGuards d C' = true)
    (htw : C'.time_window = C.time_window)
    (h : should_display_alarm parseIso now d C = Except.ok false) :
    should_display_alarm parseIso now d C' = Except.ok false := by
  rw [should_display_alarm_eq] at h ⊢
  by_cases hC : alarmGuards d C = true
  · simp [hg hC]
  · rw [Bool.not_eq_true] at hC
    rw [hC] at h
    simp only [Bool.false_eq_true, if_false] at h
    by_cases hC' : alarmGuards d C' = true
    · simp [hC']
    · rw [Bool.not_eq_true] at hC'
      rw [hC', htw]
      simpa using h

/-- Monotonicity engine for the log filter, analogous to `alarm_false_mono`. -/
theorem log_false_mono (parseIso : String → Option Int) (now : Int)
    (d : LogRecord) (C C' : LogArgs)
    (hg : logGuards d C = true → logGuards d C' = true)
    (htw : C'.time_window = C.time_window)
    (h : should_display_log parseIso now d C = Except.ok false) :
    should_display_log parseIso now d C' = Except.ok false := by
  rw [should_display_log_eq] at h ⊢
  by_cases hC : logGuards d C = true
  · simp [hg hC]
  · rw [Bool.not_eq_true] at hC
    rw [hC] at h
    simp only [Bool.false_eq_true, if_false] at h
    by_cases hC' : logGuards d C' = true
    · simp [hC']
    · rw [Bool.not_eq_true] at hC'
      rw [hC', htw]
      simpa using h

/-- Activating a time-window criterion on top of a rejecting criteria set
keeps the alarm filter rejecting: a reject with the time window inactive can
only come from the early guards, which ignore the time window. -/
theorem alarm_false_mono_tw (parseIso : String → Option Int) (now : Int)
    (d : AlarmRecord) (C : AlarmArgs) (w : Option Int)
    (hv : truthyInt C.time_window = false)
    (h : should_display_alarm parseIso now d C = Except.ok false) :
    should_display_alarm parseIso now d { C with time_window := w } = Except.ok false := by
  rw [should_display_alarm_eq] at h ⊢
  by_cases hC : alarmGuards d C = true
  · have hC' : alarmGuards d { C with time_window := w } = true := by
      simpa only [alarmGuards] using hC
    simp [hC']
  · rw [Bool.not_eq_true] at hC
    rw [hC] at h
    simp [timeWindowCheck, hv] at h

/-- Time-window activation monotonicity for the log filter, analogous to
`alarm_false_mono_tw`. -/
theorem log_false_mono_tw (parseIso : String → Option Int) (now : Int)
    (d : LogRecord) (C : LogArgs) (w : Option Int)
    (hv : truthyInt C.time_window = false)
    (h : should_display_log parseIso now d C = Except.ok false) :
    should_display_log parseIso now d { C with time_window := w } = Except.ok false := by
  rw [should_display_log_eq] at h ⊢
  by_cases hC : logGuards d C = true
  · have hC' : logGuards d { C with time_window := w } = true := by
      simpa only [logGuards] using hC
    simp [hC']
  · rw [Bool.not_eq_true] at hC
    rw [hC] at h
    simp [timeWindowCheck, hv] at h

/-- C6: the filter predicate is monotonic under criteria conjunction.  In each
monitor, if a criteria set rejects a record, then the set obtained by
activating any one additional criterion (one that was inactive, i.e. falsy)
still rejects it. -/
theorem claim_C6_monotonic_under_conjunction :
    (∀ (parseIso : String → Option Int) (now : Int) (d : AlarmRecord) (C : AlarmArgs),
      should_display_alarm parseIso now d C = Except.ok false →
      (∀ v, truthyStr C.level = false →
        should_display_alarm parseIso now d { C with level := v } = Except.ok false) ∧
      (∀ v, truthyStr C.source = false →
        should_display_alarm parseIso now d { C with source := v } = Except.ok false) ∧
      (C.active_only = false →
        should_display_alarm parseIso now d { C with active_only := true } = Except.ok false) ∧
      (C.acknowledged = false →
        should_display_alarm parseIso now d { C with acknowledged := true } = Except.ok false) ∧
      (∀ w, truthyInt C.time_window = false →
        should_display_alarm parseIso now d { C with time_window := w } = Except.ok false)) ∧
    (∀ (parseIso : String → Option Int) (now : Int) (d : LogRecord) (C : LogArgs),
      should_display_log parseIso now d C = Except.ok false →
      (∀ v, truthyStr C.level = false →
        should_display_log parseIso now d { C with level := v } = Except.ok false) ∧
      (∀ v, truthyStr C.source = false →
        should_display_log parseIso now d { C with source := v } = Except.ok false) ∧
      (∀ w, truthyInt C.time_window = false →
        should_display_log parseIso now d { C with time_window := w } = Except.ok false)) := by
  constructor
  · intro parseIso now d C h
    refine ⟨?_, ?_, ?_, ?_, ?_⟩
    · intro v hv
      refine alarm_false_mono parseIso now d C _ ?_ rfl h
      intro hG
      simp only [alarmGuards, hv, Bool.false_and, Bool.false_or, Bool.or_eq_true] at hG
      simp only [alarmGuards, Bool.or_eq_true]
      tauto
    · intro v hv
      refine alarm_false_mono parseIso now d C _ ?_ rfl h
      intro hG
      simp only [alarmGuards, hv, Bool.false_and, Bool.or_false, Bool.false_or,
        Bool.or_eq_true] at hG
      simp only [alarmGuards, Bool.or_eq_true]
      tauto
    · intro hv
      refine alarm_false_mono parseIso now d C _ ?_ rfl h
      intro hG
      simp only [alarmGuards, hv, Bool.false_and, Bool.or_false, Bool.false_or,
        Bool.or_eq_true] at hG
      simp only [alarmGuards, Bool.or_eq_true]
      tauto
    · intro hv
      refine alarm_false_mono parseIso now d C _ ?_ rfl h
      intro hG
      simp only [alarmGuards, hv, Bool.false_and, Bool.or_false, Bool.false_or,
        Bool.or_eq_true] at hG
      simp only [alarmGuards, Bool.or_eq_true]
      tauto
    · intro w hv
      exact alarm_false_mono_tw parseIso now d C w hv h
  · intro parseIso now d C h
    refine ⟨?_, ?_, ?_⟩
    · intro v hv
      refine log_false_mono parseIso now d C _ ?_ rfl h
      intro hG
      simp only [logGuards, hv, Bool.false_and, Bool.false_or, Bool.or_eq_true] at hG
      simp only [logGuards, Bool.or_eq_true]
      tauto
    · intro v hv
      refine log_false_mono parseIso now d C _ ?_ rfl h
      intro hG
      simp only [logGuards, hv, Bool.false_and, Bool.or_false, Bool.false_or,
        Bool.or_eq_true] at hG
      simp only [logGuards, Bool.or_eq_true]
      tauto
    · intro w hv
      exact log_false_mono_tw parseIso now d C w hv h

/-- C6 witness: concrete rejecting criteria sets stay rejecting after
activating the source criterion (alarm monitor) and after activating a
time-window criterion (log monitor). -/
theorem claim_C6_witness :
    should_display_alarm parseIsoSample 0 alarmRecW
        ⟨some "HIGH", some "pump-1", false, false, none⟩ = Except.ok false ∧
    should_display_log parseIsoSample 0 logRecW
        ⟨some "ERROR", none, some 30⟩ = Except.ok false :=
  ⟨((claim_C6_monotonic_under_conjunction.1 parseIsoSample 0 alarmRecW
      ⟨some "HIGH", none, false, false, none⟩ rfl).2.1 (some "pump-1") rfl),
   ((claim_C6_monotonic_under_conjunction.2 parseIsoSample 0 logRecW
      ⟨some "ERROR", none, none⟩ rfl).2.2 (some 30) rfl)⟩

/-- Outcome of `json.loads(msg.payload.decode())` when it succeeds: either the
decoded value is a JSON object (a `dict`, modelled by the record type `R`) or
it is some other JSON value (array, string, number, boolean or null), carried
here as its printed form. -/
inductive Jv (R : Type) where
  | nonObj (s : String)
  | obj (r : R)
deriving DecidableEq

/-- A raw MQTT message payload as seen by `on_message`:
`notUtf8` models bytes on which `msg.payload.decode()` raises
`UnicodeDecodeError`; `notJson s` models text on which `json.loads` raises
`json.JSONDecodeError`; `json v` models text that decodes to the JSON value
`v`. -/
inductive Payload (R : Type) where
  | notUtf8
  | notJson (s : String)
  | json (v : Jv R)
deriving DecidableEq

/-- One line appended to the monitor's log file: `auditInfo` is the
unconditional `logging.info(f"Topic: {msg.topic}, ...: {data}")` line carrying
the topic and the decoded value, `errorLine` is a `logging.error` line (its
text abstracts `str(e)` to the exception's name where the concrete text is
interpreter-formatted). -/
inductive LogEvent (R : Type) where
  | auditInfo (topic : String) (data : Jv R)
  | errorLine (text : String)
deriving DecidableEq

/-- Predicate selecting the audit-info lines among logged lines. -/
def isAuditEvent {R : Type} : LogEvent R → Bool
  | LogEvent.auditInfo _ _ => true
  | LogEvent.errorLine _ => false

/-- Observable outcome of one `on_message` callback: the lines appended to the
log file, whether the full formatted console block was emitted, and whether a
red console error notice was printed. -/
structure HandleResult (R : Type) where
  log : List (LogEvent R)
  displayed : Bool
  consoleError : Bool
deriving DecidableEq

/-- `on_message` of `alarm_monitor.py`, lines 84-117.  On a JSON object the
audit line is written first, then the filter runs; a filter exception is
caught by the generic handler, which prints and logs
`Error processing message: {e}`.  On a JSON non-object value the audit line is
still written (the code never checks the decoded type), after which the first
attribute access on the non-dict value (`data.get` in the filter when a
criterion is active, otherwise in the display block) raises `AttributeError`,
caught by the same handler; the full display block is never completed. -/
def alarm_on_message (parseIso : String → Option Int) (now : Int) (args : AlarmArgs)
    (topic : String) (payload : Payload AlarmRecord) : HandleResult AlarmRecord :=
  match payload with
  | Payload.notUtf8 =>
      ⟨[LogEvent.errorLine "Error processing message: UnicodeDecodeError"], false, true⟩
  | Payload.notJson _ =>
      ⟨[LogEvent.errorLine "Invalid JSON message received"], false, true⟩
  | Payload.json (Jv.nonObj s) =>
      ⟨[LogEvent.auditInfo topic (Jv.nonObj s),
        LogEvent.errorLine "Error processing message: AttributeError"], false, true⟩
  | Payload.json (Jv.obj r) =>
      match should_display_alarm parseIso now r args with
      | Except.error e =>
          ⟨[LogEvent.auditInfo topic (Jv.obj r),
            LogEvent.errorLine ("Error processing message: " ++ e)], false, true⟩
      | Except.ok b => ⟨[LogEvent.auditInfo topic (Jv.obj r)], b, false⟩

/-- `on_message` of `log_monitor.py`, lines 70-99, with the same structure as
`alarm_on_message`. -/
def log_on_message (parseIso : String → Option Int) (now : Int) (args : LogArgs)
    (topic : String) (payload : Payload LogRecord) : HandleResult LogRecord :=
  match payload with
  | Payload.notUtf8 =>
      ⟨[LogEvent.errorLine "Error processing message: UnicodeDecodeError"], false, true⟩
  | Payload.notJson _ =>
      ⟨[LogEvent.errorLine "Invalid JSON message received"], false, true⟩
  | Payload.json (Jv.nonObj s) =>
      ⟨[LogEvent.auditInfo topic (Jv.nonObj s),
        LogEvent.errorLine "Error processing message: AttributeError"], false, true⟩
  | Payload.json (Jv.obj r) =>
      match should_display_log parseIso now r args with
      | Except.error e =>
          ⟨[LogEvent.auditInfo topic (Jv.obj r),
            LogEvent.errorLine ("Error processing message: " ++ e)], false, true⟩
      | Except.ok b => ⟨[LogEvent.auditInfo topic (Jv.obj r)], b, false⟩

/-- One reading of the sensor-telemetry batch (`temp_monitor.py`): the fields
`sensor['SensorID']`, `sensor['ReadAt']`, `sensor['Value']`,
`sensor['Status']` accessed by the table printer. -/
structure TempReading where
  SensorID : String
  ReadAt : String
  Value : ℚ
  Status : String
deriving DecidableEq

/-- A sensor-telemetry batch decoded from a JSON object payload
(`temp_monitor.py`).  The script indexes these keys directly
(`data['MCU']` etc.), so an absent key raises `KeyError`. -/
structure TempRecord where
  MCU : Option String
  MsgTimestamp : Option String
  NoOfTempSensors : Option Int
  SensorData : Option (List TempReading)
deriving DecidableEq

/-- `on_message` of `temp_monitor.py`, lines 38-65.  This script configures no
logging at all, so no line is ever appended to any log file; decode failures
and `KeyError`/`TypeError` on missing keys or non-dict values only print a red
console notice, and a record with all four top-level keys present is always
displayed — there is no filter. -/
def temp_on_message (_topic : String) (payload : Payload TempRecord) :
    HandleResult TempRecord :=
  match payload with
  | Payload.notUtf8 => ⟨[], false, true⟩
  | Payload.notJson _ => ⟨[], false, true⟩
  | Payload.json (Jv.nonObj _) => ⟨[], false, true⟩
  | Payload.json (Jv.obj r) =>
      match r.MCU, r.MsgTimestamp, r.NoOfTempSensors, r.SensorData with
      | some _, some _, some _, some _ => ⟨[], true, false⟩
      | _, _, _, _ => ⟨[], false, true⟩

/-- The receive loop of `alarm_monitor.py`: `loop_forever` dispatches every
inbound message to `on_message`; since every per-message exception is caught
inside `on_message`, the loop handles each message of the inbound sequence. -/
def alarm_process (parseIso : String → Option Int) (now : Int) (args : AlarmArgs)
    (msgs : List (String × Payload AlarmRecord)) : List (HandleResult AlarmRecord) :=
  msgs.map (fun m => alarm_on_message parseIso now args m.1 m.2)

/-- The receive loop of `log_monitor.py`, analogous to `alarm_process`. -/
def log_process (parseIso : String → Option Int) (now : Int) (args : LogArgs)
    (msgs : List (String × Payload LogRecord)) : List (HandleResult LogRecord) :=
  msgs.map (fun m => log_on_message parseIso now args m.1 m.2)

/-- The receive loop of `temp_monitor.py`, analogous to `alarm_process`. -/
def temp_process (msgs : List (String × Payload TempRecord)) :
    List (HandleResult TempRecord) :=
  msgs.map (fun m => temp_on_message m.1 m.2)

/-- C2 counterexample: the payload `[1, 2, 3]` is valid JSON but not an
object, yet decoding does not fail: `json.loads` returns the list, the audit
line for the decoded value is written, and the failure happens downstream (an
`AttributeError` on the first `data.get`, caught by the generic handler, which
appends a second log line).  So the claimed `DecodeError`-with-one-line
behavior is false for non-object payloads. -/
theorem claim_C2_counterexample :
    alarm_on_message parseIsoSample 0 ⟨none, none, false, false, none⟩ "alarms/test"
        (Payload.json (Jv.nonObj "[1, 2, 3]")) =
      ⟨[LogEvent.auditInfo "alarms/test" (Jv.nonObj "[1, 2, 3]"),
        LogEvent.errorLine "Error processing message: AttributeError"], false, true⟩ ∧
    (alarm_on_message parseIsoSample 0 ⟨none, none, false, false, none⟩ "alarms/test"
        (Payload.json (Jv.nonObj "[1, 2, 3]"))).log.length = 2 :=
  ⟨rfl, rfl⟩

/-- C2 amended: only for payload text that is not valid JSON does decoding
fail with the JSON decode error, with exactly one log line
(`Invalid JSON message received`) recording the failure and nothing downstream
running; a valid-JSON non-object payload is decoded successfully, audited, and
fails only downstream with a second, generic error line (and undecodable bytes
fail with `UnicodeDecodeError`, not the JSON decode error). -/
theorem claim_C2_amended_not_json_one_line :
    (∀ (parseIso : String → Option Int) (now : Int) (args : AlarmArgs) (topic s : String),
      alarm_on_message parseIso now args topic (Payload.notJson s) =
        ⟨[LogEvent.errorLine "Invalid JSON message received"], false, true⟩) ∧
    (∀ (parseIso : String → Option Int) (now : Int) (args : LogArgs) (topic s : String),
      log_on_message parseIso now args topic (Payload.notJson s) =
        ⟨[LogEvent.errorLine "Invalid JSON message received"], false, true⟩) :=
  ⟨fun _ _ _ _ _ => rfl, fun _ _ _ _ _ => rfl⟩

/-- C3 counterexample: the temperature monitor configures no logging, so a
successfully decoded sensor batch is displayed with zero audit-log lines
written — refuting the claim that every monitor writes exactly one audit line
per decoded record. -/
theorem claim_C3_counterexample :
    temp_on_message "sensors/MCU01/temperature"
        (Payload.json (Jv.obj ⟨some "MCU01", some "2025-06-01T12:00:00Z", some 1,
          some [⟨"T01", "2025-06-01T12:00:00Z", 45, "Good"⟩]⟩)) =
      ⟨[], true, false⟩ :=
  rfl

/-- C3 amended: in the alarm and log monitors, every successfully decoded
record yields exactly one audit-info line, written first, carrying the topic
and the full decoded record, regardless of the filter outcome; the console
block is emitted exactly when the filter returns true.  The temperature
monitor, however, writes no log line for any payload (it displays every
fully-keyed decoded batch unconditionally). -/
theorem claim_C3_amended_audit_once_then_filter :
    (∀ (parseIso : String → Option Int) (now : Int) (args : AlarmArgs)
        (topic : String) (r : AlarmRecord),
      (alarm_on_message parseIso now args topic (Payload.json (Jv.obj r))).log.countP
          isAuditEvent = 1 ∧
      (alarm_on_message parseIso now args topic (Payload.json (Jv.obj r))).log.head? =
          some (LogEvent.auditInfo topic (Jv.obj r)) ∧
      ((alarm_on_message parseIso now args topic (Payload.json (Jv.obj r))).displayed = true ↔
          should_display_alarm parseIso now r args = Except.ok true)) ∧
    (∀ (parseIso : String → Option Int) (now : Int) (args : LogArgs)
        (topic : String) (r : LogRecord),
      (log_on_message parseIso now args topic (Payload.json (Jv.obj r))).log.countP
          isAuditEvent = 1 ∧
      (log_on_message parseIso now args topic (Payload.json (Jv.obj r))).log.head? =
          some (LogEvent.auditInfo topic (Jv.obj r)) ∧
      ((log_on_message parseIso now args topic (Payload.json (Jv.obj r))).displayed = true ↔
          should_display_log parseIso now r args = Except.ok true)) ∧
    (∀ (topic : String) (payload : Payload TempRecord),
      (temp_on_message topic payload).log = []) := by
  refine ⟨?_, ?_, ?_⟩
  · intro parseIso now args topic r
    cases h : should_display_alarm parseIso now r args with
    | error e => simp [alarm_on_message, h, isAuditEvent, List.countP_cons, List.countP_nil]
    | ok b =>
      cases b <;>
        simp [alarm_on_message, h, isAuditEvent, List.countP_cons, List.countP_nil]
  · intro parseIso now args topic r
    cases h : should_display_log parseIso now r args with
    | error e => simp [log_on_message, h, isAuditEvent, List.countP_cons, List.countP_nil]
    | ok b =>
      cases b <;>
        simp [log_on_message, h, isAuditEvent, List.countP_cons, List.countP_nil]
  · intro topic payload
    unfold temp_on_message
    rcases payload with _ | s | v
    · rfl
    · rfl
    · rcases v with s | r
      · rfl
      · rcases r with ⟨mcu, ts, n, sd⟩
        rcases mcu with _ | m <;> rcases ts with _ | t <;> rcases n with _ | k <;>
          rcases sd with _ | l <;> rfl

/-- C8: every per-message fault is absorbed at the per-message boundary.  The
receive loops handle every message of the inbound sequence (no message
terminates them), and a filter exception on a decoded record is reported as a
generic error line carrying the exception text, with no console block. -/
theorem claim_C8_per_message_boundary :
    (∀ (parseIso : String → Option Int) (now : Int) (args : AlarmArgs)
        (msgs : List (String × Payload AlarmRecord)),
      (alarm_process parseIso now args msgs).length = msgs.length) ∧
    (∀ (parseIso : String → Option Int) (now : Int) (args : LogArgs)
        (msgs : List (String × Payload LogRecord)),
      (log_process parseIso now args msgs).length = msgs.length) ∧
    (∀ (msgs : List (String × Payload TempRecord)),
      (temp_process msgs).length = msgs.length) ∧
    (∀ (parseIso : String → Option Int) (now : Int) (args : AlarmArgs)
        (topic : String) (r : AlarmRecord) (e : String),
      should_display_alarm parseIso now r args = Except.error e →
      alarm_on_message parseIso now args topic (Payload.json (Jv.obj r)) =
        ⟨[LogEvent.auditInfo topic (Jv.obj r),
          LogEvent.errorLine ("Error processing message: " ++ e)], false, true⟩) ∧
    (∀ (parseIso : String → Option Int) (now : Int) (args : LogArgs)
        (topic : String) (r : LogRecord) (e : String),
      should_display_log parseIso now r args = Except.error e →
      log_on_message parseIso now args topic (Payload.json (Jv.obj r)) =
        ⟨[LogEvent.auditInfo topic (Jv.obj r),
          LogEvent.errorLine ("Error processing message: " ++ e)], false, true⟩) := by
  refine ⟨?_, ?_, ?_, ?_, ?_⟩
  · intro parseIso now args msgs
    simp [alarm_process]
  · intro parseIso now args msgs
    simp [log_process]
  · intro msgs
    simp [temp_process]
  · intro parseIso now args topic r e h
    simp [alarm_on_message, h]
  · intro parseIso now args topic r e h
    simp [log_on_message, h]

/-- C8 witness: a record with a missing timestamp under `--time-window 30`
makes the filter raise; the handler logs the audit line plus the error line
and the loop is unaffected. -/
theorem claim_C8_witness :
    alarm_on_message parseIsoSample 0 ⟨none, none, false, false, some 30⟩ "alarms/a"
        (Payload.json (Jv.obj alarmRecNoTs)) =
      ⟨[LogEvent.auditInfo "alarms/a" (Jv.obj alarmRecNoTs),
        LogEvent.errorLine "Error processing message: Invalid isoformat string"], false, true⟩ ∧
    log_on_message parseIsoSample 0 ⟨none, none, some 30⟩ "logs/a"
        (Payload.json (Jv.obj logRecNoTs)) =
      ⟨[LogEvent.auditInfo "logs/a" (Jv.obj logRecNoTs),
        LogEvent.errorLine "Error processing message: Invalid isoformat string"], false, true⟩ :=
  ⟨claim_C8_per_message_boundary.2.2.2.1 parseIsoSample 0
      ⟨none, none, false, false, some 30⟩ "alarms/a" alarmRecNoTs
      "Invalid isoformat string" rfl,
   claim_C8_per_message_boundary.2.2.2.2 parseIsoSample 0
      ⟨none, none, some 30⟩ "logs/a" logRecNoTs "Invalid isoformat string" rfl⟩

/-- The color categories used by `format_temperature` in `temp_monitor.py`. -/
inductive TempColor where
  | red
  | yellow
  | green
  | cyan
deriving DecidableEq

/-- The branch structure of `format_temperature(value)` of `temp_monitor.py`,
lines 13-24: the color chosen for a reading value.  The Python function wraps
`value` formatted to two decimals in the chosen color's escape codes; only the
color choice depends on the value, so it is what is modelled.  Values are
rationals: every Python float is an exact rational and the thresholds are
integers, so the float comparisons agree with the rational ones. -/
def format_temperature (value : ℚ) : TempColor :=
  if value < 10 then TempColor.red
  else if value > 70 then TempColor.red
  else if value > 60 then TempColor.yellow
  else if value > 40 then TempColor.green
  else TempColor.cyan

/-- C4 counterexample: the claimed table puts 40 in the green band
(`values in 40-60 render green` — and 40 is not `below 40`), but the code
tests `value > 40` strictly, so a reading of exactly 40 renders cyan, not
green. -/
theorem claim_C4_counterexample :
    format_temperature 40 = TempColor.cyan ∧ format_temperature 40 ≠ TempColor.green := by
  have h : format_temperature 40 = TempColor.cyan := by
    unfold format_temperature
    norm_num
  refine ⟨h, ?_⟩
  rw [h]
  decide

/-- C4 amended: the bands are half-open at their lower ends — values below 10
or above 70 render red, values above 60 and at most 70 render yellow, values
above 40 and at most 60 render green, and values from 10 to 40 inclusive
render cyan; in particular 75.0 renders red and 45.0 renders green. -/
theorem claim_C4_amended_color_table :
    (∀ v : ℚ, (v < 10 ∨ 70 < v) → format_temperature v = TempColor.red) ∧
    (∀ v : ℚ, 60 < v → v ≤ 70 → format_temperature v = TempColor.yellow) ∧
    (∀ v : ℚ, 40 < v → v ≤ 60 → format_temperature v = TempColor.green) ∧
    (∀ v : ℚ, 10 ≤ v → v ≤ 40 → format_temperature v = TempColor.cyan) ∧
    format_temperature 75 = TempColor.red ∧
    format_temperature 45 = TempColor.green := by
  refine ⟨?_, ?_, ?_, ?_, ?_, ?_⟩
  · intro v hv
    unfold format_temperature
    rcases hv with hv | hv
    · rw [if_pos hv]
    · rw [if_neg (by linarith), if_pos hv]
  · intro v h1 h2
    unfold format_temperature
    rw [if_neg (by linarith), if_neg (by linarith), if_pos h1]
  · intro v h1 h2
    unfold format_temperature
    rw [if_neg (by linarith), if_neg (by linarith), if_neg (by linarith), if_pos h1]
  · intro v h1 h2
    unfold format_temperature
    rw [if_neg (by linarith), if_neg (by linarith), if_neg (by linarith),
      if_neg (by linarith)]
  · unfold format_temperature
    norm_num
  · unfold format_temperature
    norm_num

/-- C4 witness: one concrete reading in each band. -/
theorem claim_C4_witness :
    format_temperature 5 = TempColor.red ∧
    format_temperature 80 = TempColor.red ∧
    format_temperature 65 = TempColor.yellow ∧
    format_temperature 50 = TempColor.green ∧
    format_temperature 25 = TempColor.cyan :=
  ⟨claim_C4_amended_color_table.1 5 (Or.inl (by norm_num)),
   claim_C4_amended_color_table.1 80 (Or.inr (by norm_num)),
   claim_C4_amended_color_table.2.1 65 (by norm_num) (by norm_num),
   claim_C4_amended_color_table.2.2.1 50 (by norm_num) (by norm_num),
   claim_C4_amended_color_table.2.2.2.1 25 (by norm_num) (by norm_num)⟩
